import Mathlib

/-!
Shallow embedding of the `meeting` fragment of blindsidenetworks/3akai-ux:

* `MeetingApi` embeds the REST API client module (`api.meeting`): each
  operation validates its arguments, and — given a simulated transport
  outcome — either throws synchronously before any HTTP activity, issues
  one HTTP request and invokes its callback, or issues the request and
  then faults because no callback function was supplied and none was
  defaulted.

* `MeetingPage` embeds the page controller (`ui/js/meeting.js`): URL
  identity resolution, the initial-load callback, the context responder,
  the push-notification handler and the profile-refresh procedure, all as
  pure state transformers over an explicit `PageState`.
-/

namespace MeetingApi

/-- A JavaScript value as it appears in a callback argument position:
`null`, the uniform transport-error object `{code, msg}`, or a raw
response body. -/
inductive JSVal
  | null
  | errObj (code : Nat) (msg : String)
  | raw (body : String)
  deriving DecidableEq, Repr

/-- A value placed in the `data` payload of an `$.ajax` call. An optional
parameter that the caller omitted still appears as a key of the object
literal, with an undefined value; that is `omitted`. -/
inductive FieldVal
  | str (s : String)
  | boolean (b : Bool)
  | num (n : Nat)
  | strList (l : List String)
  | omitted
  deriving DecidableEq, Repr

/-- One HTTP request as configured in an `$.ajax` call: URL, verb, and the
`data` payload (empty when the call passes no `data`). -/
structure HttpRequest where
  url : String
  verb : String
  data : List (String × FieldVal)
  deriving DecidableEq, Repr

/-- A simulated transport outcome for the single HTTP request an operation
issues: either the success handler fires with a response body, or the
error handler fires with an HTTP status and raw response text. -/
inductive Transport
  | success (body : String)
  | failure (status : Nat) (body : String)
  deriving DecidableEq, Repr

/-- What an operation throws synchronously: an explicit
`throw new Error(msg)` from argument validation, or the implicit
TypeError raised by dereferencing an absent argument (as in
`shareMeeting`, which reads `principals.length` without first checking
that `principals` exists). -/
inductive Thrown
  | error (msg : String)
  | typeError
  deriving DecidableEq, Repr

/-- The observable result of calling one API operation with a simulated
transport outcome.

* `thrown e` — the call threw synchronously; no HTTP request was issued
  and no callback was invoked.
* `completed req calls` — the request `req` was issued and the callback
  in effect (the supplied one, or the defaulted no-op) was invoked with
  each argument list in `calls`, in order.
* `cbUndefined req` — the request `req` was issued, but when the
  transport completed the operation tried to invoke an undefined
  callback (the caller supplied none and the operation does not default
  it). -/
inductive Outcome
  | thrown (e : Thrown)
  | completed (req : HttpRequest) (calls : List (List JSVal))
  | cbUndefined (req : HttpRequest)
  deriving DecidableEq, Repr

/-- JavaScript truthiness test for an optional string argument: absent
(`undefined`/`null`) and the empty string are falsy. -/
def strFalsy : Option String → Bool
  | none => true
  | some s => s == ""

/-- The string value of a non-falsy optional string argument. -/
def strVal : Option String → String
  | none => ""
  | some s => s

/-- Did the operation complete both its issue and callback steps without
faulting? -/
def completedOutcome : Outcome → Bool
  | .completed _ _ => true
  | _ => false

/-- Did the operation fault by invoking an undefined callback? -/
def crashedNoCallback : Outcome → Bool
  | .cbUndefined _ => true
  | _ => false

/-- The callback invocations recorded by a completed outcome. -/
def outcomeCalls : Outcome → List (List JSVal)
  | .completed _ calls => calls
  | _ => []

/-- The HTTP request issued by an outcome, when one was issued. -/
def outcomeRequest : Outcome → Option HttpRequest
  | .completed req _ => some req
  | .cbUndefined req => some req
  | .thrown _ => none

/-- Embeds `getMeeting(meetingId, callback)`: validates the meeting id, issues
`GET /api/meeting/<id>`; the callback is documented required and is NOT
defaulted, so an absent callback faults at transport completion. Success
invokes `callback(null, data)`; failure invokes
`callback({code, msg})`. -/
def getMeeting (meetingId : Option String) (cbPresent : Bool) (t : Transport) : Outcome :=
  if strFalsy meetingId then .thrown (.error "A valid meeting id should be provided") else
  let req : HttpRequest := { url := "/api/meeting/" ++ strVal meetingId, verb := "GET", data := [] }
  if cbPresent then
    match t with
    | .success body => .completed req [[.null, .raw body]]
    | .failure s b => .completed req [[.errObj s b]]
  else .cbUndefined req

/-- The `data` object literal field for an optional string parameter. -/
def optField : Option String → FieldVal
  | none => .omitted
  | some s => .str s

/-- The `data` object literal field for an optional string-list parameter. -/
def optListField : Option (List String) → FieldVal
  | none => .omitted
  | some l => .strList l

/-- The `data` object literal field for an optional numeric parameter. -/
def optNumField : Option Nat → FieldVal
  | none => .omitted
  | some n => .num n

/-- Embeds `createMeeting(displayName, description, record, allModerators,
waitModerator, visibility, managers, members, callback)`: validates the
topic, defaults an absent callback to a no-op, and issues
`POST /api/meeting/create` with all eight fields in the payload. -/
def createMeeting (displayName description record allModerators waitModerator visibility : Option String)
    (managers members : Option (List String)) (cbPresent : Bool) (t : Transport) : Outcome :=
  if strFalsy displayName then .thrown (.error "A valid description topic should be provided") else
  -- callback = callback || function() {}; behaviour no longer depends on cbPresent
  let _ := cbPresent
  let req : HttpRequest :=
    { url := "/api/meeting/create", verb := "POST",
      data := [("displayName", .str (strVal displayName)), ("description", optField description),
               ("record", optField record), ("allModerators", optField allModerators),
               ("waitModerator", optField waitModerator), ("visibility", optField visibility),
               ("managers", optListField managers), ("members", optListField members)] }
  match t with
  | .success body => .completed req [[.null, .raw body]]
  | .failure s b => .completed req [[.errObj s b]]

/-- Embeds `updateMeeting(meetingId, params, callback)`: validates the meeting id
and that `params` exists and has at least one key, defaults an absent
callback to a no-op, and issues `POST /api/meeting/<id>` with `params` as
the payload. -/
def updateMeeting (meetingId : Option String) (params : Option (List (String × FieldVal)))
    (cbPresent : Bool) (t : Transport) : Outcome :=
  if strFalsy meetingId then .thrown (.error "A valid meeting id should be provided") else
  if params.getD [] = [] then .thrown (.error "At least one update parameter should be provided") else
  let _ := cbPresent
  let req : HttpRequest :=
    { url := "/api/meeting/" ++ strVal meetingId, verb := "POST", data := params.getD [] }
  match t with
  | .success body => .completed req [[.null, .raw body]]
  | .failure s b => .completed req [[.errObj s b]]

/-- Embeds `startMeeting(meetingId, callback)`: validates the meeting id,
defaults an absent callback to a no-op, and issues
`POST /api/meeting/<id>/start`; its success handler takes no response
body and invokes `callback(null)`. -/
def startMeeting (meetingId : Option String) (cbPresent : Bool) (t : Transport) : Outcome :=
  if strFalsy meetingId then .thrown (.error "A valid meeting id should be provided") else
  let _ := cbPresent
  let req : HttpRequest :=
    { url := "/api/meeting/" ++ strVal meetingId ++ "/start", verb := "POST", data := [] }
  match t with
  | .success _ => .completed req [[.null]]
  | .failure s b => .completed req [[.errObj s b]]

/-- Embeds `deleteMeeting(meetingId, callback)`: validates the meeting id,
defaults an absent callback to a no-op, and issues
`DELETE /api/meeting/<id>`; success invokes `callback(null)`. -/
def deleteMeeting (meetingId : Option String) (cbPresent : Bool) (t : Transport) : Outcome :=
  if strFalsy meetingId then .thrown (.error "A valid meeting id should be provided") else
  let _ := cbPresent
  let req : HttpRequest :=
    { url := "/api/meeting/" ++ strVal meetingId, verb := "DELETE", data := [] }
  match t with
  | .success _ => .completed req [[.null]]
  | .failure s b => .completed req [[.errObj s b]]

/-- Embeds `getMembers(meetingId, start, limit, callback)`: validates the meeting
id, issues `GET /api/meeting/<id>/members` with the paging parameters;
the callback is documented required and is NOT defaulted. -/
def getMembers (meetingId : Option String) (start : Option String) (limit : Option Nat)
    (cbPresent : Bool) (t : Transport) : Outcome :=
  if strFalsy meetingId then .thrown (.error "A valid meeting id should be provided") else
  let req : HttpRequest :=
    { url := "/api/meeting/" ++ strVal meetingId ++ "/members", verb := "GET",
      data := [("start", optField start), ("limit", optNumField limit)] }
  if cbPresent then
    match t with
    | .success body => .completed req [[.null, .raw body]]
    | .failure s b => .completed req [[.errObj s b]]
  else .cbUndefined req

/-- Embeds `updateMembers(meetingId, updatedMembers, callback)`: validates the
meeting id and that the role map exists and has at least one entry,
defaults an absent callback to a no-op, and issues
`POST /api/meeting/<id>/members` with the map as payload; success invokes
`callback(null)`. -/
def updateMembers (meetingId : Option String) (updatedMembers : Option (List (String × FieldVal)))
    (cbPresent : Bool) (t : Transport) : Outcome :=
  if strFalsy meetingId then .thrown (.error "A valid meeting id should be provided") else
  if updatedMembers.getD [] = [] then
    .thrown (.error "The updatedMembers hash should contain at least 1 update") else
  let _ := cbPresent
  let req : HttpRequest :=
    { url := "/api/meeting/" ++ strVal meetingId ++ "/members", verb := "POST",
      data := updatedMembers.getD [] }
  match t with
  | .success _ => .completed req [[.null]]
  | .failure s b => .completed req [[.errObj s b]]

/-- Embeds `shareMeeting(meetingId, principals, callback)`: validates the meeting
id, then reads `principals.length` — an absent `principals` therefore
raises a TypeError, an empty list raises the validation error. Defaults
an absent callback to a no-op and issues `POST /api/meeting/<id>/share`
with `{members: principals}`. -/
def shareMeeting (meetingId : Option String) (principals : Option (List String))
    (cbPresent : Bool) (t : Transport) : Outcome :=
  if strFalsy meetingId then .thrown (.error "A meeting id should be provided") else
  match principals with
  | none => .thrown .typeError
  | some ps =>
    if ps = [] then .thrown (.error "A user or group to share with should be provided") else
    let _ := cbPresent
    let req : HttpRequest :=
      { url := "/api/meeting/" ++ strVal meetingId ++ "/share", verb := "POST",
        data := [("members", .strList ps)] }
    match t with
    | .success body => .completed req [[.null, .raw body]]
    | .failure s b => .completed req [[.errObj s b]]

/-- Embeds `getLibrary(principalId, start, limit, callback)`: validates the
principal id, issues `GET /api/meeting/library/<principalId>` with the
paging parameters; the callback is documented required and is NOT
defaulted. -/
def getLibrary (principalId : Option String) (start : Option String) (limit : Option Nat)
    (cbPresent : Bool) (t : Transport) : Outcome :=
  if strFalsy principalId then .thrown (.error "A user or group id should be provided") else
  let req : HttpRequest :=
    { url := "/api/meeting/library/" ++ strVal principalId, verb := "GET",
      data := [("start", optField start), ("limit", optNumField limit)] }
  if cbPresent then
    match t with
    | .success body => .completed req [[.null, .raw body]]
    | .failure s b => .completed req [[.errObj s b]]
  else .cbUndefined req

/-- Embeds `deleteMeetingFromLibrary(principalId, meetingId, callback)`:
validates both ids, defaults an absent callback to a no-op, and issues
`DELETE /api/meeting/library/<principalId>/<meetingId>`; success invokes
`callback(null)`. -/
def deleteMeetingFromLibrary (principalId meetingId : Option String)
    (cbPresent : Bool) (t : Transport) : Outcome :=
  if strFalsy principalId then .thrown (.error "A valid user or group id should be provided") else
  if strFalsy meetingId then .thrown (.error "A valid meeting id should be provided") else
  let _ := cbPresent
  let req : HttpRequest :=
    { url := "/api/meeting/library/" ++ strVal principalId ++ "/" ++ strVal meetingId,
      verb := "DELETE", data := [] }
  match t with
  | .success _ => .completed req [[.null]]
  | .failure s b => .completed req [[.errObj s b]]

/-- Embeds `endMeeting(meetingId, callback)`: validates the meeting id, defaults
an absent callback to a no-op, and issues `GET /api/meeting/<id>/end`;
its success handler ignores the response body and invokes
`callback(null)`. -/
def endMeeting (meetingId : Option String) (cbPresent : Bool) (t : Transport) : Outcome :=
  if strFalsy meetingId then .thrown (.error "A valid meeting id should be provided") else
  let _ := cbPresent
  let req : HttpRequest :=
    { url := "/api/meeting/" ++ strVal meetingId ++ "/end", verb := "GET", data := [] }
  match t with
  | .success _ => .completed req [[.null]]
  | .failure s b => .completed req [[.errObj s b]]

/-- Embeds `infoMeeting(meetingId, callback)`: validates the meeting id, defaults
an absent callback to a no-op, and issues `GET /api/meeting/<id>/info`;
success invokes `callback(null, response)`, failure invokes
`callback({code, msg}, null)`. -/
def infoMeeting (meetingId : Option String) (cbPresent : Bool) (t : Transport) : Outcome :=
  if strFalsy meetingId then .thrown (.error "A valid meeting id should be provided") else
  let _ := cbPresent
  let req : HttpRequest :=
    { url := "/api/meeting/" ++ strVal meetingId ++ "/info", verb := "GET", data := [] }
  match t with
  | .success body => .completed req [[.null, .raw body]]
  | .failure s b => .completed req [[.errObj s b, .null]]

/-- Embeds `getRecording(meetingId, callback)`: validates the meeting id,
defaults an absent callback to a no-op, and issues
`GET /api/recording/<id>`; success invokes `callback(null, response)`,
failure invokes `callback({code, msg}, null)` (the `statusCode` 404 entry
only logs and does not change the callback contract). -/
def getRecording (meetingId : Option String) (cbPresent : Bool) (t : Transport) : Outcome :=
  if strFalsy meetingId then .thrown (.error "A valid meeting id should be provided") else
  let _ := cbPresent
  let req : HttpRequest :=
    { url := "/api/recording/" ++ strVal meetingId, verb := "GET", data := [] }
  match t with
  | .success body => .completed req [[.null, .raw body]]
  | .failure s b => .completed req [[.errObj s b, .null]]

/-- Embeds `updateRecording(recordingId, publish, callback)`: validates the
recording id, defaults an absent callback to a no-op, and issues
`PATCH /api/recording/<id>` with payload `{publish: !publish}` — the
negation of the argument. Success invokes `callback(null, response)`,
failure invokes `callback({code, msg}, null)`. -/
def updateRecording (recordingId : Option String) (publish : Bool)
    (cbPresent : Bool) (t : Transport) : Outcome :=
  if strFalsy recordingId then .thrown (.error "A valid recording id should be provided") else
  let _ := cbPresent
  let req : HttpRequest :=
    { url := "/api/recording/" ++ strVal recordingId, verb := "PATCH",
      data := [("publish", .boolean (!publish))] }
  match t with
  | .success body => .completed req [[.null, .raw body]]
  | .failure s b => .completed req [[.errObj s b, .null]]

/-- Embeds `deleteRecording(recordingId, callback)`: validates the recording id,
defaults an absent callback to a no-op, and issues
`DELETE /api/recording/<id>`; success invokes `callback(null, response)`,
failure invokes `callback({code, msg}, null)`. -/
def deleteRecording (recordingId : Option String) (cbPresent : Bool) (t : Transport) : Outcome :=
  if strFalsy recordingId then .thrown (.error "A valid recording id should be provided") else
  let _ := cbPresent
  let req : HttpRequest :=
    { url := "/api/recording/" ++ strVal recordingId, verb := "DELETE", data := [] }
  match t with
  | .success body => .completed req [[.null, .raw body]]
  | .failure s b => .completed req [[.errObj s b, .null]]

/-- Embeds `getInvitations(meetingId, callback)`: validates the meeting id,
issues `GET /api/meeting/<id>/invitations`; the callback is documented
required and is NOT defaulted. -/
def getInvitations (meetingId : Option String) (cbPresent : Bool) (t : Transport) : Outcome :=
  if strFalsy meetingId then .thrown (.error "A valid meeting id should be provided") else
  let req : HttpRequest :=
    { url := "/api/meeting/" ++ strVal meetingId ++ "/invitations", verb := "GET", data := [] }
  if cbPresent then
    match t with
    | .success body => .completed req [[.null, .raw body]]
    | .failure s b => .completed req [[.errObj s b]]
  else .cbUndefined req

/-- Embeds `resendInvitation(meetingId, email, callback)`: validates the meeting
id (the email is not validated), issues
`POST /api/meeting/<id>/invitations/<email>/resend`; the callback is
documented required and is NOT defaulted. Its success handler invokes
`callback()` with NO arguments; failure invokes `callback({code, msg})`. -/
def resendInvitation (meetingId : Option String) (email : String)
    (cbPresent : Bool) (t : Transport) : Outcome :=
  if strFalsy meetingId then .thrown (.error "A valid meeting id should be provided") else
  let req : HttpRequest :=
    { url := "/api/meeting/" ++ strVal meetingId ++ "/invitations/" ++ email ++ "/resend",
      verb := "POST", data := [] }
  if cbPresent then
    match t with
    | .success _ => .completed req [[]]
    | .failure s b => .completed req [[.errObj s b]]
  else .cbUndefined req

end MeetingApi

namespace MeetingPage

/-- The meeting profile record, with the fields the page controller
reads: identity/metadata fields, the tenant display name, the push
signature, and the three permission flags that the push handler copies
from the cached profile onto an incoming activity object. -/
structure MeetingProfile where
  id : String
  displayName : String
  description : String
  visibility : String
  tenantDisplayName : String
  signature : String
  canShare : Bool
  canPost : Bool
  isManager : Bool
  deriving DecidableEq, Repr

/-- An inbound push activity: the controller reads `activity.actor.id`,
the `oae:activityType` key and `activity.object`. -/
structure Activity where
  actorId : String
  activityType : String
  object : MeetingProfile
  deriving DecidableEq, Repr

/-- Where a failed initial load redirects. -/
inductive Redirect
  | accessdenied
  | notfound
  deriving DecidableEq, Repr

/-- The transport error object delivered to the `getMeeting` callback. -/
structure ApiError where
  code : Nat
  msg : String
  deriving DecidableEq, Repr

/-- One event published on the document event bus by the context
responder: a channel name and the profile payload (`none` models the
initial `null` profile). -/
structure BusEvent where
  channel : String
  payload : Option MeetingProfile
  deriving DecidableEq, Repr

/-- jQuery delivers a triggered event to a listener exactly when the
listener is bound to the name of the triggered event. -/
def receives (listenerChannel : String) (e : BusEvent) : Bool :=
  listenerChannel == e.channel

/-- The observable state of the page controller. `refreshCount` is ghost
instrumentation counting invocations of `refreshMeetingProfile`; every
other field tracks a variable or an external effect of the source. -/
structure PageState where
  /-- the `meetingProfile` variable (`none` is the initial `null`) -/
  meetingProfile : Option MeetingProfile
  /-- content of the last render of `#meeting-clip-container`
  (`none` = never rendered; the inner value is the `meetingProfile`
  passed to the template) -/
  clipRender : Option (Option MeetingProfile)
  /-- Embeds `setUpNavigation` has registered the left-hand navigation -/
  navRegistered : Bool
  /-- Embeds `setUpContext` has bound the `oae.context.get` listener -/
  contextRegistered : Bool
  /-- payloads of the proactive `oae.context.send` broadcasts emitted by
  `setUpContext` itself, in order -/
  contextBroadcasts : List (Option MeetingProfile)
  /-- Embeds `oae.api.util.showPage()` has run -/
  pageShown : Bool
  /-- Embeds `oae.api.push.subscribe` has run -/
  pushSubscribed : Bool
  /-- redirect issued by the initial-load error branch -/
  redirect : Option Redirect
  /-- widget instances inside `#lhnavigation-widget-meeting`, each
  recorded as the `meetingProfile` it was configured with -/
  topicContainer : List (Option MeetingProfile)
  /-- ghost: number of `refreshMeetingProfile` runs -/
  refreshCount : Nat
  deriving DecidableEq, Repr

/-- The page state before `getMeetingProfile()` runs. -/
def initialPageState : PageState :=
  { meetingProfile := none, clipRender := none, navRegistered := false,
    contextRegistered := false, contextBroadcasts := [], pageShown := false,
    pushSubscribed := false, redirect := none, topicContainer := [], refreshCount := 0 }

/-- The purl 1-based path-segment accessor `$.url().segment(n)`, modelled
for in-range segments of the location path. -/
def urlSegment (segments : List String) (n : Nat) : String :=
  segments.getD (n - 1) ""

/-- Embeds the `meetingId` computation: the literal `d:` followed by path
segment 2, a colon, and path segment 3 of the location. -/
def meetingId (segments : List String) : String :=
  "d:" ++ urlSegment segments 2 ++ ":" ++ urlSegment segments 3

/-- Embeds the `baseUrl` computation: the literal `/meeting/` followed by
path segment 2, a slash, and path segment 3 of the location. -/
def baseUrl (segments : List String) : String :=
  "/meeting/" ++ urlSegment segments 2 ++ "/" ++ urlSegment segments 3

/-- Embeds `setUpClip()`: render the clip template from the current
`meetingProfile` into `#meeting-clip-container`. -/
def setUpClip (st : PageState) : PageState :=
  { st with clipRender := some st.meetingProfile }

/-- Embeds `setUpNavigation()`: trigger the left-hand navigation registration. -/
def setUpNavigation (st : PageState) : PageState :=
  { st with navRegistered := true }

/-- Embeds `setUpContext()`: bind the `oae.context.get` listener, then trigger
one immediate `oae.context.send` broadcast carrying the current
profile. -/
def setUpContext (st : PageState) : PageState :=
  { st with contextRegistered := true,
            contextBroadcasts := st.contextBroadcasts ++ [st.meetingProfile] }

/-- Embeds `setUpPushNotifications()`: subscribe to the activity stream
of the meeting. -/
def setUpPushNotifications (st : PageState) : PageState :=
  { st with pushSubscribed := true }

/-- The reply produced by the `oae.context.get` listener: a directed
request for widget `w` is answered on `oae.context.send.<w>`, a generic
request on `oae.context.send`, in both cases with the current profile. -/
def contextGetReply (prof : Option MeetingProfile) (widgetId : Option String) : BusEvent :=
  match widgetId with
  | some w => { channel := "oae.context.send." ++ w, payload := prof }
  | none => { channel := "oae.context.send", payload := prof }

/-- The reply of the context responder as a function of the page state. -/
def handleContextGet (st : PageState) (widgetId : Option String) : BusEvent :=
  contextGetReply st.meetingProfile widgetId

/-- The callback body of `getMeetingProfile()`: on error, redirect by
code (401 to access denied, anything else to not found) and return; on
success, cache the profile and run the one-time setup sequence in source
order. -/
def getMeetingProfileCallback (st : PageState) (res : Except ApiError MeetingProfile) : PageState :=
  match res with
  | .error err =>
    if err.code = 401 then { st with redirect := some .accessdenied }
    else { st with redirect := some .notfound }
  | .ok profile =>
    let st1 := { st with meetingProfile := some profile }
    let st2 := setUpClip st1
    let st3 := setUpNavigation st2
    let st4 := setUpContext st3
    let st5 := { st4 with pageShown := true }
    setUpPushNotifications st5

/-- First half of `refreshMeetingTopic()`: `$widgetContainer.empty()`. -/
def emptyTopicContainer (st : PageState) : PageState :=
  { st with topicContainer := [] }

/-- Second half of `refreshMeetingTopic()`:
the `insertWidget` call appending one meeting widget configured with the
current `meetingProfile`. -/
def insertMeetingWidget (st : PageState) : PageState :=
  { st with topicContainer := st.topicContainer ++ [st.meetingProfile] }

/-- Embeds `refreshMeetingTopic()`: empty the container, then insert the meeting
widget configured with the current profile. -/
def refreshMeetingTopic (st : PageState) : PageState :=
  insertMeetingWidget (emptyTopicContainer st)

/-- Embeds `refreshMeetingProfile(updatedMeeting)`: cache the replacement
profile, refresh the meeting topic, refresh the clip. The ghost counter
records that one refresh ran. -/
def refreshMeetingProfile (st : PageState) (updatedMeeting : MeetingProfile) : PageState :=
  let st1 := { st with meetingProfile := some updatedMeeting,
                       refreshCount := st.refreshCount + 1 }
  setUpClip (refreshMeetingTopic st1)

/-- The `oae.editmeeting.done` document listener. -/
def handleEditMeetingDone (st : PageState) (updatedMeeting : MeetingProfile) : PageState :=
  refreshMeetingProfile st updatedMeeting

/-- The fixed allow-list `supportedActivities`. -/
def supportedActivities : List String :=
  ["meeting-update", "meeting-update-visibility"]

/-- Lines 147–149 of the push handler: the in-place assignment of the
permission flags of the cached profile onto `activity.object`; the resulting
value is what `oae.editmeeting.done` is triggered with. -/
def patchObject (prof : MeetingProfile) (obj : MeetingProfile) : MeetingProfile :=
  { obj with canShare := prof.canShare, canPost := prof.canPost, isManager := prof.isManager }

/-- The filter of the push-subscription handler: the profile value passed
to `oae.editmeeting.done` when the batch-head activity qualifies
(its actor is not the viewing user and its type is allow-listed), and
`none` (no event, no refresh) otherwise. -/
def pushActivityAction (meId : String) (prof : MeetingProfile) (activity : Activity) :
    Option MeetingProfile :=
  if activity.actorId ≠ meId ∧ activity.activityType ∈ supportedActivities then
    some (patchObject prof activity.object)
  else none

/-- The push-subscription handler applied to a whole batch: it reads only
`activities[0]`, filters it, and — when it qualifies — triggers
`oae.editmeeting.done`, which runs `refreshMeetingProfile`. The source
dereferences `activities[0].actor` and `meetingProfile.signature`
unconditionally, so an empty batch or an unloaded profile is outside its
domain; those cases are mapped to the unchanged state here and excluded
by hypothesis in every theorem about this handler. -/
def handlePushBatch (meId : String) (st : PageState) (batch : List Activity) : PageState :=
  match batch, st.meetingProfile with
  | activity :: _, some prof =>
    match pushActivityAction meId prof activity with
    | some updated => handleEditMeetingDone st updated
    | none => st
  | _, _ => st

end MeetingPage

namespace Samples

/-- A concrete cached meeting profile, with all permission flags set. -/
def profA : MeetingPage.MeetingProfile :=
  { id := "d:tenant:m1", displayName := "Standup", description := "daily sync",
    visibility := "private", tenantDisplayName := "Tenant", signature := "sig1",
    canShare := true, canPost := true, isManager := true }

/-- A concrete incoming profile (activity object) with all permission
flags cleared and every other field different from `profA`. -/
def profB : MeetingPage.MeetingProfile :=
  { id := "d:tenant:m1", displayName := "Standup renamed", description := "weekly sync",
    visibility := "public", tenantDisplayName := "Tenant", signature := "sig2",
    canShare := false, canPost := false, isManager := false }

/-- The page state right after a successful initial load of `profA`. -/
def stLoaded : MeetingPage.PageState :=
  { MeetingPage.initialPageState with meetingProfile := some profA }

/-- A push activity by another user with an allow-listed type. -/
def actQualifying : MeetingPage.Activity :=
  { actorId := "u:other", activityType := "meeting-update", object := profB }

/-- A push activity whose actor is the viewing user. -/
def actSelf : MeetingPage.Activity :=
  { actorId := "u:me", activityType := "meeting-update", object := profB }

/-- A push activity by another user with a type outside the allow-list. -/
def actUnsupported : MeetingPage.Activity :=
  { actorId := "u:other", activityType := "meeting-start", object := profB }

end Samples

/-- Appending to a fixed string on the left is injective. -/
theorem string_append_right_cancel {a b c : String} (h : a ++ b = a ++ c) : b = c := by
  apply String.ext
  have hd := congrArg String.data h
  simp only [String.data_append] at hd
  exact List.append_cancel_left hd

/-- The generic context channel differs from every widget-scoped context
channel (the scoped channel is strictly longer). -/
theorem generic_channel_ne_scoped (w : String) :
    ("oae.context.send" : String) ≠ "oae.context.send." ++ w := by
  intro h
  have hd := congrArg String.length h
  rw [String.length_append] at hd
  have h1 : ("oae.context.send" : String).length = 16 := by decide
  have h2 : ("oae.context.send." : String).length = 17 := by decide
  rw [h1, h2] at hd
  omega

/-- Claim C8: for every location of the fixed two-segment form
`/meeting/<tenant>/<resource>` (path segments `meeting`, tenant,
resource), the page controller derives the meeting identifier
`d:<tenant>:<resource>` and the canonical base path
`/meeting/<tenant>/<resource>` from the second and third path
segments. -/
theorem C8_url_identity_resolution (tenant resource : String) :
    MeetingPage.meetingId ["meeting", tenant, resource] = "d:" ++ tenant ++ ":" ++ resource ∧
    MeetingPage.baseUrl ["meeting", tenant, resource] =
      "/meeting/" ++ tenant ++ "/" ++ resource := by
  exact ⟨rfl, rfl⟩

/-- Claim C6: when the initial meeting-profile fetch fails, an error with
code 401 redirects to the access-denied destination and any other code
redirects to the not-found destination, and the resulting state differs
from the pre-callback state only in the redirect — none of the one-time
setup steps (clip render, navigation registration, context responder
registration, page reveal, push subscription) is performed. -/
theorem C6_initial_load_error_routing (st : MeetingPage.PageState) (err : MeetingPage.ApiError) :
    MeetingPage.getMeetingProfileCallback st (.error err) =
      { st with redirect := some (if err.code = 401 then .accessdenied else .notfound) } := by
  by_cases h : err.code = 401 <;> simp [MeetingPage.getMeetingProfileCallback, h]

/-- Claim C9: applying the same replacement profile twice through the
edit-done handler is idempotent — the cached profile, the rendered clip
and the topic widget container after the second application equal those
after the first — and after each application the topic container holds
exactly one widget instance, because the container is emptied before the
reinsertion. -/
theorem C9_refresh_idempotent (st : MeetingPage.PageState) (p : MeetingPage.MeetingProfile) :
    (MeetingPage.handleEditMeetingDone (MeetingPage.handleEditMeetingDone st p) p).meetingProfile =
      (MeetingPage.handleEditMeetingDone st p).meetingProfile ∧
    (MeetingPage.handleEditMeetingDone (MeetingPage.handleEditMeetingDone st p) p).clipRender =
      (MeetingPage.handleEditMeetingDone st p).clipRender ∧
    (MeetingPage.handleEditMeetingDone (MeetingPage.handleEditMeetingDone st p) p).topicContainer =
      (MeetingPage.handleEditMeetingDone st p).topicContainer ∧
    (MeetingPage.handleEditMeetingDone st p).meetingProfile = some p ∧
    (MeetingPage.handleEditMeetingDone st p).topicContainer = [some p] ∧
    (MeetingPage.handleEditMeetingDone st p).topicContainer.length = 1 := by
  refine ⟨?_, ?_, ?_, ?_, ?_, ?_⟩ <;>
    simp [MeetingPage.handleEditMeetingDone, MeetingPage.refreshMeetingProfile,
      MeetingPage.refreshMeetingTopic, MeetingPage.emptyTopicContainer,
      MeetingPage.insertMeetingWidget, MeetingPage.setUpClip]

/-- Claim C1: for a loaded page and a nonempty inbound push batch, only
the first activity is consulted (the tail of the batch never affects the
result); if the first activity has the viewing user as actor or a type
outside {meeting-update, meeting-update-visibility}, the state is
unchanged (no refresh); and if its actor differs from the viewing user
and its type is allow-listed, exactly one refresh runs, with the value
of the activity object at trigger time (the handler first assigns the
cached permission flags onto it in place) as the new profile. -/
theorem C1_push_filtering (meId : String) (st : MeetingPage.PageState)
    (prof : MeetingPage.MeetingProfile) (a : MeetingPage.Activity)
    (rest : List MeetingPage.Activity)
    (hload : st.meetingProfile = some prof) :
    MeetingPage.handlePushBatch meId st (a :: rest) = MeetingPage.handlePushBatch meId st [a] ∧
    (a.actorId = meId ∨ a.activityType ∉ MeetingPage.supportedActivities →
      MeetingPage.handlePushBatch meId st (a :: rest) = st) ∧
    (a.actorId ≠ meId → a.activityType ∈ MeetingPage.supportedActivities →
      MeetingPage.handlePushBatch meId st (a :: rest) =
        MeetingPage.refreshMeetingProfile st (MeetingPage.patchObject prof a.object) ∧
      (MeetingPage.handlePushBatch meId st (a :: rest)).refreshCount = st.refreshCount + 1 ∧
      (MeetingPage.handlePushBatch meId st (a :: rest)).meetingProfile =
        some (MeetingPage.patchObject prof a.object)) := by
  refine ⟨by simp [MeetingPage.handlePushBatch, hload], ?_, ?_⟩
  · intro h
    have hc : ¬(a.actorId ≠ meId ∧ a.activityType ∈ MeetingPage.supportedActivities) := by
      rcases h with h | h
      · exact fun hc => hc.1 h
      · exact fun hc => h hc.2
    simp [MeetingPage.handlePushBatch, hload, MeetingPage.pushActivityAction, hc]
  · intro h1 h2
    have hres : MeetingPage.handlePushBatch meId st (a :: rest) =
        MeetingPage.refreshMeetingProfile st (MeetingPage.patchObject prof a.object) := by
      simp [MeetingPage.handlePushBatch, hload, MeetingPage.pushActivityAction, h1, h2,
        MeetingPage.handleEditMeetingDone]
    refine ⟨hres, ?_, ?_⟩ <;>
      simp [hres, MeetingPage.refreshMeetingProfile, MeetingPage.refreshMeetingTopic,
        MeetingPage.emptyTopicContainer, MeetingPage.insertMeetingWidget, MeetingPage.setUpClip]

/-- Witness for C1 at concrete inputs: a qualifying activity by another
user triggers exactly the one refresh with the patched activity object,
and an activity whose actor is the viewing user leaves the state
unchanged. -/
theorem C1_push_filtering_witness :
    MeetingPage.handlePushBatch "u:me" Samples.stLoaded [Samples.actQualifying] =
      MeetingPage.refreshMeetingProfile Samples.stLoaded
        (MeetingPage.patchObject Samples.profA Samples.profB) ∧
    MeetingPage.handlePushBatch "u:me" Samples.stLoaded [Samples.actSelf] = Samples.stLoaded := by
  constructor
  · exact ((C1_push_filtering "u:me" Samples.stLoaded Samples.profA Samples.actQualifying []
      rfl).2.2 (by decide) (by decide)).1
  · exact (C1_push_filtering "u:me" Samples.stLoaded Samples.profA Samples.actSelf []
      rfl).2.1 (Or.inl rfl)

/-- Counterexample to claim C2 as stated: at this concrete input a
qualifying push notification triggers a refresh whose resulting current
profile has its canShare flag carried over from the old profile (true)
rather than taken from the incoming activity object (false) — so a field
of the old profile IS merged into the new current profile, contradicting
the claim that a push-triggered refresh carries over no field of the old
profile. -/
theorem C2_counterexample :
    (MeetingPage.handlePushBatch "u:me" Samples.stLoaded
        [Samples.actQualifying]).meetingProfile =
      some (MeetingPage.patchObject Samples.profA Samples.profB) ∧
    (MeetingPage.patchObject Samples.profA Samples.profB).canShare = Samples.profA.canShare ∧
    (MeetingPage.patchObject Samples.profA Samples.profB).canShare ≠ Samples.profB.canShare := by
  refine ⟨by decide, by decide, by decide⟩

/-- Claim C2 (amended): an edit-done refresh replaces the cached profile
wholesale with the incoming profile; a qualifying push-notification
refresh replaces the cached profile with the incoming activity object in
every field except the three permission flags canShare, canPost and
isManager, which are carried over from the old cached profile. -/
theorem C2_profile_replacement (st : MeetingPage.PageState) (p : MeetingPage.MeetingProfile)
    (meId : String) (prof : MeetingPage.MeetingProfile) (a : MeetingPage.Activity)
    (rest : List MeetingPage.Activity)
    (hload : st.meetingProfile = some prof)
    (hactor : a.actorId ≠ meId) (htype : a.activityType ∈ MeetingPage.supportedActivities) :
    (MeetingPage.handleEditMeetingDone st p).meetingProfile = some p ∧
    (MeetingPage.handlePushBatch meId st (a :: rest)).meetingProfile =
      some (MeetingPage.patchObject prof a.object) ∧
    (MeetingPage.patchObject prof a.object).id = a.object.id ∧
    (MeetingPage.patchObject prof a.object).displayName = a.object.displayName ∧
    (MeetingPage.patchObject prof a.object).description = a.object.description ∧
    (MeetingPage.patchObject prof a.object).visibility = a.object.visibility ∧
    (MeetingPage.patchObject prof a.object).tenantDisplayName = a.object.tenantDisplayName ∧
    (MeetingPage.patchObject prof a.object).signature = a.object.signature ∧
    (MeetingPage.patchObject prof a.object).canShare = prof.canShare ∧
    (MeetingPage.patchObject prof a.object).canPost = prof.canPost ∧
    (MeetingPage.patchObject prof a.object).isManager = prof.isManager := by
  refine ⟨?_, ?_, rfl, rfl, rfl, rfl, rfl, rfl, rfl, rfl, rfl⟩
  · simp [MeetingPage.handleEditMeetingDone, MeetingPage.refreshMeetingProfile,
      MeetingPage.refreshMeetingTopic, MeetingPage.emptyTopicContainer,
      MeetingPage.insertMeetingWidget, MeetingPage.setUpClip]
  · simp [MeetingPage.handlePushBatch, hload, MeetingPage.pushActivityAction, hactor, htype,
      MeetingPage.handleEditMeetingDone, MeetingPage.refreshMeetingProfile,
      MeetingPage.refreshMeetingTopic, MeetingPage.emptyTopicContainer,
      MeetingPage.insertMeetingWidget, MeetingPage.setUpClip]

/-- Witness for the amended C2 at concrete inputs: the edit-done path
caches the replacement wholesale, and the push path caches the patched
incoming object. -/
theorem C2_profile_replacement_witness :
    (MeetingPage.handleEditMeetingDone Samples.stLoaded Samples.profB).meetingProfile =
      some Samples.profB ∧
    (MeetingPage.handlePushBatch "u:me" Samples.stLoaded
        [Samples.actQualifying]).meetingProfile =
      some (MeetingPage.patchObject Samples.profA Samples.profB) := by
  have h := C2_profile_replacement Samples.stLoaded Samples.profB "u:me" Samples.profA
    Samples.actQualifying [] rfl (by decide) (by decide)
  exact ⟨h.1, h.2.1⟩

/-- Claim C7: after the profile is loaded, a generic context request is
answered by a broadcast on the shared channel oae.context.send carrying
the current profile; a directed request naming widget w is answered on
the channel oae.context.send.w, which is received by a listener scoped
to w and neither by a listener scoped to a different widget nor by a
generic listener; and setUpContext performs exactly one proactive
broadcast of the current profile immediately after registering the
responder. -/
theorem C7_context_responder (st : MeetingPage.PageState) (p : MeetingPage.MeetingProfile)
    (w w2 : String)
    (hload : st.meetingProfile = some p) (hw : w2 ≠ w) :
    MeetingPage.handleContextGet st none =
      { channel := "oae.context.send", payload := some p } ∧
    MeetingPage.receives "oae.context.send" (MeetingPage.handleContextGet st none) = true ∧
    (MeetingPage.handleContextGet st (some w)).payload = some p ∧
    MeetingPage.receives ("oae.context.send." ++ w)
      (MeetingPage.handleContextGet st (some w)) = true ∧
    MeetingPage.receives ("oae.context.send." ++ w2)
      (MeetingPage.handleContextGet st (some w)) = false ∧
    MeetingPage.receives "oae.context.send" (MeetingPage.handleContextGet st (some w)) = false ∧
    (MeetingPage.setUpContext st).contextBroadcasts = st.contextBroadcasts ++ [some p] ∧
    (MeetingPage.setUpContext st).contextRegistered = true := by
  refine ⟨?_, ?_, ?_, ?_, ?_, ?_, ?_, ?_⟩
  · simp [MeetingPage.handleContextGet, MeetingPage.contextGetReply, hload]
  · simp [MeetingPage.receives, MeetingPage.handleContextGet, MeetingPage.contextGetReply]
  · simp [MeetingPage.handleContextGet, MeetingPage.contextGetReply, hload]
  · simp [MeetingPage.receives, MeetingPage.handleContextGet, MeetingPage.contextGetReply]
  · have hne : ("oae.context.send." ++ w2) ≠ ("oae.context.send." ++ w) :=
      fun h => hw (string_append_right_cancel h)
    simp only [MeetingPage.receives, MeetingPage.handleContextGet, MeetingPage.contextGetReply]
    exact beq_eq_false_iff_ne.mpr hne
  · simp only [MeetingPage.receives, MeetingPage.handleContextGet, MeetingPage.contextGetReply]
    exact beq_eq_false_iff_ne.mpr (generic_channel_ne_scoped w)
  · simp [MeetingPage.setUpContext, hload]
  · simp [MeetingPage.setUpContext]

/-- Witness for C7 at concrete inputs: the generic reply broadcasts the
loaded profile, and the reply directed at the meeting widget is not
received by a listener scoped to the comments widget. -/
theorem C7_context_responder_witness :
    MeetingPage.handleContextGet Samples.stLoaded none =
      { channel := "oae.context.send", payload := some Samples.profA } ∧
    MeetingPage.receives ("oae.context.send." ++ "comments")
      (MeetingPage.handleContextGet Samples.stLoaded (some "meeting")) = false := by
  have h := C7_context_responder Samples.stLoaded Samples.profA "meeting" "comments"
    rfl (by decide)
  exact ⟨h.1, h.2.2.2.2.1⟩

/-- Claim C10: for every recording id and both values of the publish
argument, updateRecording issues its PATCH request to
/api/recording/(id) with a publish field equal to the logical negation
of the publish argument it was called with. -/
theorem C10_updateRecording_negated_publish (rid : String) (publish cb : Bool)
    (t : MeetingApi.Transport) (h : rid ≠ "") :
    MeetingApi.outcomeRequest (MeetingApi.updateRecording (some rid) publish cb t) =
      some { url := "/api/recording/" ++ rid, verb := "PATCH",
             data := [("publish", MeetingApi.FieldVal.boolean (!publish))] } := by
  have hf : MeetingApi.strFalsy (some rid) = false := by
    show (rid == "") = false
    exact beq_eq_false_iff_ne.mpr h
  cases t <;> simp [MeetingApi.updateRecording, hf, MeetingApi.outcomeRequest, MeetingApi.strVal]

/-- Witness for C10 at a concrete input: calling updateRecording with
publish = true puts publish = false on the wire. -/
theorem C10_updateRecording_negated_publish_witness :
    MeetingApi.outcomeRequest (MeetingApi.updateRecording (some "r1") true true
        (MeetingApi.Transport.success "ok")) =
      some { url := "/api/recording/" ++ "r1", verb := "PATCH",
             data := [("publish", MeetingApi.FieldVal.boolean (!true))] } := by
  exact C10_updateRecording_negated_publish "r1" true true
    (MeetingApi.Transport.success "ok") (by decide)

/-- Counterexample to claim C3 as stated: getMeeting does not replace an
absent callback with a no-op (no defaulting line exists in it), so at
this concrete input — a valid meeting id, no callback, a successful
transport — the operation ends by attempting to invoke an undefined
function, contradicting the claim that every operation completes both
paths without doing so. -/
theorem C3_counterexample :
    MeetingApi.getMeeting (some "m1") false (MeetingApi.Transport.success "body") =
      MeetingApi.Outcome.cbUndefined
        { url := "/api/meeting/" ++ "m1", verb := "GET", data := [] } := by
  decide

/-- Claim C3 (amended): the twelve operations whose callback parameter is
documented optional (createMeeting, updateMeeting, startMeeting,
deleteMeeting, updateMembers, shareMeeting, deleteMeetingFromLibrary,
endMeeting, infoMeeting, getRecording, updateRecording, deleteRecording)
replace an absent callback with a no-op, so that with valid required
arguments they complete both the success and the failure path; the five
operations whose callback is documented required (getMeeting, getMembers,
getLibrary, getInvitations, resendInvitation) do not default it, and
invoking them without a callback reaches a call to an undefined function
when the transport completes. -/
theorem C3_callback_defaulting (mid pid rid em : String) (b : Bool)
    (t : MeetingApi.Transport)
    (hm : mid ≠ "") (hp : pid ≠ "") (hr : rid ≠ "") :
    MeetingApi.completedOutcome (MeetingApi.createMeeting (some mid) none none none none none
      none none false t) = true ∧
    MeetingApi.completedOutcome (MeetingApi.updateMeeting (some mid)
      (some [("displayName", .str "x")]) false t) = true ∧
    MeetingApi.completedOutcome (MeetingApi.startMeeting (some mid) false t) = true ∧
    MeetingApi.completedOutcome (MeetingApi.deleteMeeting (some mid) false t) = true ∧
    MeetingApi.completedOutcome (MeetingApi.updateMembers (some mid)
      (some [(pid, .str "manager")]) false t) = true ∧
    MeetingApi.completedOutcome (MeetingApi.shareMeeting (some mid) (some [pid]) false t) = true ∧
    MeetingApi.completedOutcome (MeetingApi.deleteMeetingFromLibrary (some pid) (some mid)
      false t) = true ∧
    MeetingApi.completedOutcome (MeetingApi.endMeeting (some mid) false t) = true ∧
    MeetingApi.completedOutcome (MeetingApi.infoMeeting (some mid) false t) = true ∧
    MeetingApi.completedOutcome (MeetingApi.getRecording (some mid) false t) = true ∧
    MeetingApi.completedOutcome (MeetingApi.updateRecording (some rid) b false t) = true ∧
    MeetingApi.completedOutcome (MeetingApi.deleteRecording (some rid) false t) = true ∧
    MeetingApi.crashedNoCallback (MeetingApi.getMeeting (some mid) false t) = true ∧
    MeetingApi.crashedNoCallback (MeetingApi.getMembers (some mid) none none false t) = true ∧
    MeetingApi.crashedNoCallback (MeetingApi.getLibrary (some pid) none none false t) = true ∧
    MeetingApi.crashedNoCallback (MeetingApi.getInvitations (some mid) false t) = true ∧
    MeetingApi.crashedNoCallback (MeetingApi.resendInvitation (some mid) em false t) = true := by
  have hfm : MeetingApi.strFalsy (some mid) = false := by
    show (mid == "") = false
    exact beq_eq_false_iff_ne.mpr hm
  have hfp : MeetingApi.strFalsy (some pid) = false := by
    show (pid == "") = false
    exact beq_eq_false_iff_ne.mpr hp
  have hfr : MeetingApi.strFalsy (some rid) = false := by
    show (rid == "") = false
    exact beq_eq_false_iff_ne.mpr hr
  refine ⟨?_, ?_, ?_, ?_, ?_, ?_, ?_, ?_, ?_, ?_, ?_, ?_, ?_, ?_, ?_, ?_, ?_⟩ <;>
    cases t <;>
    simp [MeetingApi.createMeeting, MeetingApi.updateMeeting, MeetingApi.startMeeting,
      MeetingApi.deleteMeeting, MeetingApi.updateMembers, MeetingApi.shareMeeting,
      MeetingApi.deleteMeetingFromLibrary, MeetingApi.endMeeting, MeetingApi.infoMeeting,
      MeetingApi.getRecording, MeetingApi.updateRecording, MeetingApi.deleteRecording,
      MeetingApi.getMeeting, MeetingApi.getMembers, MeetingApi.getLibrary,
      MeetingApi.getInvitations, MeetingApi.resendInvitation,
      MeetingApi.completedOutcome, MeetingApi.crashedNoCallback, hfm, hfp, hfr]

/-- Witness for the amended C3 at concrete inputs: startMeeting without a
callback completes, getMeeting without a callback tries to invoke an
undefined function. -/
theorem C3_callback_defaulting_witness :
    MeetingApi.completedOutcome (MeetingApi.startMeeting (some "m1") false
      (MeetingApi.Transport.success "ok")) = true ∧
    MeetingApi.crashedNoCallback (MeetingApi.getMeeting (some "m1") false
      (MeetingApi.Transport.success "ok")) = true := by
  obtain ⟨h1, h2, h3, h4, h5, h6, h7, h8, h9, h10, h11, h12, h13, h14, h15, h16, h17⟩ :=
    C3_callback_defaulting "m1" "u1" "r1" "a@b.example" true
      (MeetingApi.Transport.success "ok") (by decide) (by decide) (by decide)
  exact ⟨h3, h13⟩

/-- Claim C4: for every API operation with a required identifier, topic or
non-empty-collection argument, calling the operation with that argument
absent (or, for collections, empty) throws synchronously: the outcome is
a `thrown` value, which by construction records no HTTP request and no
callback invocation — the failure happens before any network activity
and the supplied callback is never invoked. This covers the meeting id
of every meeting operation, the topic of createMeeting, the at-least-one
-field params of updateMeeting, the at-least-one-entry map of
updateMembers, the non-empty principals list of shareMeeting (an absent
list faults on the length read, an empty one on validation), the
principal id of getLibrary and deleteMeetingFromLibrary, and the
recording id of the recording operations. -/
theorem C4_required_argument_validation (mid pid em : String)
    (params : Option (List (String × MeetingApi.FieldVal)))
    (s : Option String) (ls : Option (List String)) (l : Option Nat)
    (b cb : Bool) (t : MeetingApi.Transport)
    (hm : mid ≠ "") (hp : pid ≠ "") :
    MeetingApi.getMeeting none cb t =
      .thrown (.error "A valid meeting id should be provided") ∧
    MeetingApi.createMeeting none s s s s s ls ls cb t =
      .thrown (.error "A valid description topic should be provided") ∧
    MeetingApi.updateMeeting none params cb t =
      .thrown (.error "A valid meeting id should be provided") ∧
    MeetingApi.updateMeeting (some mid) none cb t =
      .thrown (.error "At least one update parameter should be provided") ∧
    MeetingApi.updateMeeting (some mid) (some []) cb t =
      .thrown (.error "At least one update parameter should be provided") ∧
    MeetingApi.startMeeting none cb t =
      .thrown (.error "A valid meeting id should be provided") ∧
    MeetingApi.deleteMeeting none cb t =
      .thrown (.error "A valid meeting id should be provided") ∧
    MeetingApi.getMembers none s l cb t =
      .thrown (.error "A valid meeting id should be provided") ∧
    MeetingApi.updateMembers none params cb t =
      .thrown (.error "A valid meeting id should be provided") ∧
    MeetingApi.updateMembers (some mid) none cb t =
      .thrown (.error "The updatedMembers hash should contain at least 1 update") ∧
    MeetingApi.updateMembers (some mid) (some []) cb t =
      .thrown (.error "The updatedMembers hash should contain at least 1 update") ∧
    MeetingApi.shareMeeting none (some [pid]) cb t =
      .thrown (.error "A meeting id should be provided") ∧
    MeetingApi.shareMeeting (some mid) none cb t = .thrown .typeError ∧
    MeetingApi.shareMeeting (some mid) (some []) cb t =
      .thrown (.error "A user or group to share with should be provided") ∧
    MeetingApi.getLibrary none s l cb t =
      .thrown (.error "A user or group id should be provided") ∧
    MeetingApi.deleteMeetingFromLibrary none (some mid) cb t =
      .thrown (.error "A valid user or group id should be provided") ∧
    MeetingApi.deleteMeetingFromLibrary (some pid) none cb t =
      .thrown (.error "A valid meeting id should be provided") ∧
    MeetingApi.endMeeting none cb t =
      .thrown (.error "A valid meeting id should be provided") ∧
    MeetingApi.infoMeeting none cb t =
      .thrown (.error "A valid meeting id should be provided") ∧
    MeetingApi.getRecording none cb t =
      .thrown (.error "A valid meeting id should be provided") ∧
    MeetingApi.updateRecording none b cb t =
      .thrown (.error "A valid recording id should be provided") ∧
    MeetingApi.deleteRecording none cb t =
      .thrown (.error "A valid recording id should be provided") ∧
    MeetingApi.getInvitations none cb t =
      .thrown (.error "A valid meeting id should be provided") ∧
    MeetingApi.resendInvitation none em cb t =
      .thrown (.error "A valid meeting id should be provided") := by
  have hfm : MeetingApi.strFalsy (some mid) = false := by
    show (mid == "") = false
    exact beq_eq_false_iff_ne.mpr hm
  have hfp : MeetingApi.strFalsy (some pid) = false := by
    show (pid == "") = false
    exact beq_eq_false_iff_ne.mpr hp
  refine ⟨?_, ?_, ?_, ?_, ?_, ?_, ?_, ?_, ?_, ?_, ?_, ?_, ?_, ?_, ?_, ?_, ?_, ?_, ?_, ?_, ?_,
    ?_, ?_, ?_⟩ <;>
    simp [MeetingApi.getMeeting, MeetingApi.createMeeting, MeetingApi.updateMeeting,
      MeetingApi.startMeeting, MeetingApi.deleteMeeting, MeetingApi.getMembers,
      MeetingApi.updateMembers, MeetingApi.shareMeeting, MeetingApi.getLibrary,
      MeetingApi.deleteMeetingFromLibrary, MeetingApi.endMeeting, MeetingApi.infoMeeting,
      MeetingApi.getRecording, MeetingApi.updateRecording, MeetingApi.deleteRecording,
      MeetingApi.getInvitations, MeetingApi.resendInvitation, MeetingApi.strFalsy,
      hfm, hfp, hm, hp]

/-- Witness for C4 at concrete inputs: updateMeeting with an empty params
map and shareMeeting with an absent principals list both throw before
any HTTP activity. -/
theorem C4_required_argument_validation_witness :
    MeetingApi.updateMeeting (some "m1") (some []) true (MeetingApi.Transport.success "ok") =
      .thrown (.error "At least one update parameter should be provided") ∧
    MeetingApi.shareMeeting (some "m1") none true (MeetingApi.Transport.success "ok") =
      .thrown .typeError := by
  obtain ⟨h1, h2, h3, h4, h5, h6, h7, h8, h9, h10, h11, h12, h13, h14, h15, h16, h17, h18,
    h19, h20, h21, h22, h23, h24⟩ :=
    C4_required_argument_validation "m1" "u1" "a@b.example" none none none none true true
      (MeetingApi.Transport.success "ok") (by decide) (by decide)
  exact ⟨h5, h13⟩

/-- Counterexample to claim C5 as stated: the success handler of
resendInvitation invokes the callback with NO arguments at all (the
source reads callback(), not callback(null)), so at this concrete input
the single invocation has an empty argument list — its first argument is
not null as the claim requires for every operation. -/
theorem C5_counterexample :
    MeetingApi.outcomeCalls (MeetingApi.resendInvitation (some "m1") "a@b.example" true
        (MeetingApi.Transport.success "ok")) = [[]] ∧
    [([] : List MeetingApi.JSVal)] ≠ [[MeetingApi.JSVal.null]] := by
  refine ⟨by decide, by decide⟩

/-- Claim C5 (amended): with a callback supplied and valid required
arguments, every operation invokes the callback exactly once per
transport completion, with no retry. On transport success the callback
receives null as first argument and the raw response body as second (or
null alone for the endpoints whose handler takes no body), EXCEPT
resendInvitation, whose success handler invokes the callback with no
arguments at all. On transport failure with status S and body B every
operation passes the object with code S and msg B as first argument (the
info/recording operations additionally pass null as a second
argument). -/
theorem C5_callback_invocation (mid pid rid em body eb : String) (sc : Nat) (pb : Bool)
    (hm : mid ≠ "") (hp : pid ≠ "") (hr : rid ≠ "") :
    MeetingApi.outcomeCalls (MeetingApi.getMeeting (some mid) true
      (.success body)) = [[.null, .raw body]] ∧
    MeetingApi.outcomeCalls (MeetingApi.getMeeting (some mid) true
      (.failure sc eb)) = [[.errObj sc eb]] ∧
    MeetingApi.outcomeCalls (MeetingApi.createMeeting (some mid) none none none none none
      none none true (.success body)) = [[.null, .raw body]] ∧
    MeetingApi.outcomeCalls (MeetingApi.createMeeting (some mid) none none none none none
      none none true (.failure sc eb)) = [[.errObj sc eb]] ∧
    MeetingApi.outcomeCalls (MeetingApi.updateMeeting (some mid)
      (some [("displayName", .str "x")]) true (.success body)) = [[.null, .raw body]] ∧
    MeetingApi.outcomeCalls (MeetingApi.updateMeeting (some mid)
      (some [("displayName", .str "x")]) true (.failure sc eb)) = [[.errObj sc eb]] ∧
    MeetingApi.outcomeCalls (MeetingApi.startMeeting (some mid) true
      (.success body)) = [[.null]] ∧
    MeetingApi.outcomeCalls (MeetingApi.startMeeting (some mid) true
      (.failure sc eb)) = [[.errObj sc eb]] ∧
    MeetingApi.outcomeCalls (MeetingApi.deleteMeeting (some mid) true
      (.success body)) = [[.null]] ∧
    MeetingApi.outcomeCalls (MeetingApi.deleteMeeting (some mid) true
      (.failure sc eb)) = [[.errObj sc eb]] ∧
    MeetingApi.outcomeCalls (MeetingApi.getMembers (some mid) none none true
      (.success body)) = [[.null, .raw body]] ∧
    MeetingApi.outcomeCalls (MeetingApi.getMembers (some mid) none none true
      (.failure sc eb)) = [[.errObj sc eb]] ∧
    MeetingApi.outcomeCalls (MeetingApi.updateMembers (some mid)
      (some [(pid, .str "manager")]) true (.success body)) = [[.null]] ∧
    MeetingApi.outcomeCalls (MeetingApi.updateMembers (some mid)
      (some [(pid, .str "manager")]) true (.failure sc eb)) = [[.errObj sc eb]] ∧
    MeetingApi.outcomeCalls (MeetingApi.shareMeeting (some mid) (some [pid]) true
      (.success body)) = [[.null, .raw body]] ∧
    MeetingApi.outcomeCalls (MeetingApi.shareMeeting (some mid) (some [pid]) true
      (.failure sc eb)) = [[.errObj sc eb]] ∧
    MeetingApi.outcomeCalls (MeetingApi.getLibrary (some pid) none none true
      (.success body)) = [[.null, .raw body]] ∧
    MeetingApi.outcomeCalls (MeetingApi.getLibrary (some pid) none none true
      (.failure sc eb)) = [[.errObj sc eb]] ∧
    MeetingApi.outcomeCalls (MeetingApi.deleteMeetingFromLibrary (some pid) (some mid) true
      (.success body)) = [[.null]] ∧
    MeetingApi.outcomeCalls (MeetingApi.deleteMeetingFromLibrary (some pid) (some mid) true
      (.failure sc eb)) = [[.errObj sc eb]] ∧
    MeetingApi.outcomeCalls (MeetingApi.endMeeting (some mid) true
      (.success body)) = [[.null]] ∧
    MeetingApi.outcomeCalls (MeetingApi.endMeeting (some mid) true
      (.failure sc eb)) = [[.errObj sc eb]] ∧
    MeetingApi.outcomeCalls (MeetingApi.infoMeeting (some mid) true
      (.success body)) = [[.null, .raw body]] ∧
    MeetingApi.outcomeCalls (MeetingApi.infoMeeting (some mid) true
      (.failure sc eb)) = [[.errObj sc eb, .null]] ∧
    MeetingApi.outcomeCalls (MeetingApi.getRecording (some mid) true
      (.success body)) = [[.null, .raw body]] ∧
    MeetingApi.outcomeCalls (MeetingApi.getRecording (some mid) true
      (.failure sc eb)) = [[.errObj sc eb, .null]] ∧
    MeetingApi.outcomeCalls (MeetingApi.updateRecording (some rid) pb true
      (.success body)) = [[.null, .raw body]] ∧
    MeetingApi.outcomeCalls (MeetingApi.updateRecording (some rid) pb true
      (.failure sc eb)) = [[.errObj sc eb, .null]] ∧
    MeetingApi.outcomeCalls (MeetingApi.deleteRecording (some rid) true
      (.success body)) = [[.null, .raw body]] ∧
    MeetingApi.outcomeCalls (MeetingApi.deleteRecording (some rid) true
      (.failure sc eb)) = [[.errObj sc eb, .null]] ∧
    MeetingApi.outcomeCalls (MeetingApi.getInvitations (some mid) true
      (.success body)) = [[.null, .raw body]] ∧
    MeetingApi.outcomeCalls (MeetingApi.getInvitations (some mid) true
      (.failure sc eb)) = [[.errObj sc eb]] ∧
    MeetingApi.outcomeCalls (MeetingApi.resendInvitation (some mid) em true
      (.success body)) = [[]] ∧
    MeetingApi.outcomeCalls (MeetingApi.resendInvitation (some mid) em true
      (.failure sc eb)) = [[.errObj sc eb]] := by
  have hfm : MeetingApi.strFalsy (some mid) = false := by
    show (mid == "") = false
    exact beq_eq_false_iff_ne.mpr hm
  have hfp : MeetingApi.strFalsy (some pid) = false := by
    show (pid == "") = false
    exact beq_eq_false_iff_ne.mpr hp
  have hfr : MeetingApi.strFalsy (some rid) = false := by
    show (rid == "") = false
    exact beq_eq_false_iff_ne.mpr hr
  refine ⟨?_, ?_, ?_, ?_, ?_, ?_, ?_, ?_, ?_, ?_, ?_, ?_, ?_, ?_, ?_, ?_, ?_, ?_, ?_, ?_,
    ?_, ?_, ?_, ?_, ?_, ?_, ?_, ?_, ?_, ?_, ?_, ?_, ?_, ?_⟩ <;>
    simp [MeetingApi.getMeeting, MeetingApi.createMeeting, MeetingApi.updateMeeting,
      MeetingApi.startMeeting, MeetingApi.deleteMeeting, MeetingApi.getMembers,
      MeetingApi.updateMembers, MeetingApi.shareMeeting, MeetingApi.getLibrary,
      MeetingApi.deleteMeetingFromLibrary, MeetingApi.endMeeting, MeetingApi.infoMeeting,
      MeetingApi.getRecording, MeetingApi.updateRecording, MeetingApi.deleteRecording,
      MeetingApi.getInvitations, MeetingApi.resendInvitation, MeetingApi.outcomeCalls,
      hfm, hfp, hfr]

/-- Witness for the amended C5 at concrete inputs: getMeeting passes
(null, body) on success, resendInvitation passes no arguments on
success. -/
theorem C5_callback_invocation_witness :
    MeetingApi.outcomeCalls (MeetingApi.getMeeting (some "m1") true
      (MeetingApi.Transport.success "ok")) = [[.null, .raw "ok"]] ∧
    MeetingApi.outcomeCalls (MeetingApi.resendInvitation (some "m1") "a@b.example" true
      (MeetingApi.Transport.success "ok")) = [[]] := by
  obtain ⟨h1, h2, h3, h4, h5, h6, h7, h8, h9, h10, h11, h12, h13, h14, h15, h16, h17, h18,
    h19, h20, h21, h22, h23, h24, h25, h26, h27, h28, h29, h30, h31, h32, h33, h34⟩ :=
    C5_callback_invocation "m1" "u1" "r1" "a@b.example" "ok" "err" 500 true
      (by decide) (by decide) (by decide)
  exact ⟨h1, h33⟩
